import Mathlib

/-!
# Verification of the neolink RTSP stream-router core (`src/rtsp/gst.rs`)

Shallow embedding of the stream-routing core: the access-control
declarator (`RtspServer::add_permitted_roles`), the pipeline descriptor
builder (`GstOutputs::apply_format`), the format latch
(`GstOutputs::set_format`) and the unit-consuming sink
(`GstOutputs::stream_recv`), together with proofs of the specified
properties.

The `maybe_app_src` and `maybe_inputselect` sub-modules are declared in
`gst.rs` but their sources are not part of the visible tree; their
externally observable outcomes (write success/failure, selector
readiness, the liveness oracle's answer) are modelled from the spec as a
per-call environment oracle (`Env`).  All other definitions are
translated directly from `gst.rs`.
-/

namespace Neolink

/-! ## Access control declarator (`RtspServer::add_permitted_roles`) -/

/-- An RTSP access rule: the spec's `AccessRule` record.  In the source a
rule is a GStreamer `Structure` attached to the factory mounted at `path`;
a missing construct key is the same as `canConstruct = false`. -/
structure AccessRule where
  path : String
  role : String
  canAccess : Bool
  canConstruct : Bool
deriving DecidableEq, Repr

/-- Translation of `RtspServer::add_permitted_roles` (gst.rs:366-400).  The `HashSet` of
permitted roles is modelled as a list of distinct role names; the factory
is identified by its mount `path`.  For every permitted role a rule with
access and construct is added; then, if `"anonymous"` is not among the
permitted roles, the implicit floor rule (access only) is added. -/
def add_permitted_roles (path : String) (permitted_roles : List String) :
    List AccessRule :=
  permitted_roles.map (fun r => ⟨path, r, true, true⟩) ++
    (if permitted_roles.contains "anonymous" then []
     else [⟨path, "anonymous", true, false⟩])

/-! ## Character-list segment search

The pipeline descriptor is a single string; the claims about it are
substring-containment facts.  `leadsWith p l` checks that `p` is an
initial segment of `l`; `hasSeg p l` checks that `p` occurs contiguously
somewhere in `l`. -/

def leadsWith : List Char → List Char → Bool
  | [], _ => true
  | _ :: _, [] => false
  | a :: as, b :: bs => a == b && leadsWith as bs

def hasSeg (p : List Char) : List Char → Bool
  | [] => p.isEmpty
  | b :: bs => leadsWith p (b :: bs) || hasSeg p bs

/-- A string-level view: `pat` occurs contiguously in `hay`. -/
def strHas (hay pat : String) : Bool :=
  hasSeg pat.data hay.data

theorem leadsWith_append {p x : List Char} (h : leadsWith p x = true)
    (y : List Char) : leadsWith p (x ++ y) = true := by
  induction p generalizing x with
  | nil => simp [leadsWith]
  | cons a as ih =>
    cases x with
    | nil => simp [leadsWith] at h
    | cons b bs =>
      simp only [leadsWith, Bool.and_eq_true] at h ⊢
      exact ⟨h.1, ih h.2⟩

theorem hasSeg_nil_pat (l : List Char) : hasSeg [] l = true := by
  induction l with
  | nil => rfl
  | cons b bs ih => simp [hasSeg, leadsWith]

theorem hasSeg_append_right {p x : List Char} (h : hasSeg p x = true)
    (y : List Char) : hasSeg p (x ++ y) = true := by
  induction x with
  | nil =>
    simp only [hasSeg, List.isEmpty_iff] at h
    subst h
    exact hasSeg_nil_pat y
  | cons b bs ih =>
    simp only [hasSeg, Bool.or_eq_true] at h ⊢
    rcases h with h | h
    · exact Or.inl (leadsWith_append h y)
    · exact Or.inr (ih h)

theorem hasSeg_append_left {p y : List Char} (h : hasSeg p y = true)
    (x : List Char) : hasSeg p (x ++ y) = true := by
  induction x with
  | nil => simpa using h
  | cons b bs ih =>
    simp only [List.cons_append, hasSeg, Bool.or_eq_true]
    exact Or.inr ih

theorem String.data_append (s t : String) : (s ++ t).data = s.data ++ t.data := by
  cases s; cases t; rfl

/-- Translation of `Vec::join(" ")` from the source (gst.rs:244-277). -/
def joinSp : List String → String
  | [] => ""
  | [s] => s
  | s :: rest => s ++ " " ++ joinSp rest

theorem joinSp_cons (s : String) (t : String) (rest : List String) :
    joinSp (s :: t :: rest) = s ++ " " ++ joinSp (t :: rest) := rfl

/-- Lifting a segment hit through `joinSp`: if the pattern occurs in some
element of the list, it occurs in the joined string. -/
theorem hasSeg_joinSp {p : List Char} {s : String} :
    ∀ {L : List String}, s ∈ L → hasSeg p s.data = true →
      hasSeg p (joinSp L).data = true := by
  intro L
  induction L with
  | nil => intro h; exact absurd h (List.not_mem_nil s)
  | cons a rest ih =>
    intro hmem hseg
    rcases List.mem_cons.mp hmem with rfl | hmem
    · cases rest with
      | nil => exact hseg
      | cons b rbs =>
        rw [joinSp_cons, String.data_append, String.data_append]
        exact hasSeg_append_right (hasSeg_append_right hseg _) _
    · cases rest with
      | nil => exact absurd hmem (List.not_mem_nil s)
      | cons b rbs =>
        rw [joinSp_cons, String.data_append]
        exact hasSeg_append_left (ih hmem hseg) _

/-! ## Stream formats and the pipeline descriptor builder -/

/-- Translation of `StreamFormat` (gst.rs:67-76).  The ADPCM block size is a `u16` in the
source; it is modelled as a `Nat` and the `as u16` cast at the creation
site (gst.rs:121) is written `% 65536`. -/
inductive StreamFormat
  | h264
  | h265
  | aac
  | adpcm (blockSize : Nat)
deriving DecidableEq, Repr

/-- The `launch_vid_select` match of `apply_format` (gst.rs:202-206). -/
def launch_vid_select : Option StreamFormat → String
  | some .h264 => "! rtph264pay name=pay0"
  | some .h265 => "! rtph265pay name=pay0"
  | _ => "! fakesink"

/-- The `launch_app_src` match of `apply_format` (gst.rs:208-216). -/
def launch_app_src : Option StreamFormat → String
  | some .h264 =>
    "! queue silent=true max-size-bytes=10485760  min-threshold-bytes=1024 ! h264parse"
  | some .h265 =>
    "! queue silent=true  max-size-bytes=10485760  min-threshold-bytes=1024 ! h265parse"
  | _ => ""

/-- The `launch_alt_source` match of `apply_format` (gst.rs:218-226). -/
def launch_alt_source : Option StreamFormat → String
  | some .h264 =>
    "videotestsrc ! queue silent=true  max-size-bytes=10485760  min-threshold-bytes=1024 ! x264enc ! video/x-h264,width=896,height=512,framerate=25/1 ! h264parse"
  | some .h265 =>
    "videotestsrc ! queue silent=true  max-size-bytes=10485760  min-threshold-bytes=1024 ! x265enc ! video/x-h265,width=896,height=512,framerate=25/1 ! h265parse"
  | _ => ""

/-- The `launch_imgfreeze_source` match of `apply_format` (gst.rs:228-236). -/
def launch_imgfreeze_source : Option StreamFormat → String
  | some .h264 =>
    "avdec_h264 ! imagefreeze allow-replace=true is-live=true ! x264enc ! video/x-h264,width=896,height=512,framerate=25/1 ! h264parse"
  | some .h265 =>
    "decodebin ! imagefreeze allow-replace=true is-live=true ! x265enc ! video/x-h265,width=896,height=512,framerate=25/1 ! h265parse"
  | _ => ""

/-- The `launch_aud` match of `apply_format` (gst.rs:238-242); the
`format!` interpolation of the block size is written as concatenation. -/
def launch_aud : Option StreamFormat → String
  | some (.adpcm block_size) =>
    "caps=audio/x-adpcm,layout=dvi,block_align=" ++ toString block_size ++
      ",channels=1,rate=8000 ! queue silent=true max-size-bytes=10485760 min-threshold-bytes=1024 ! adpcmdec  ! audioconvert ! rtpL16pay name=pay1"
  | some .aac =>
    "! queue silent=true max-size-bytes=10485760 min-threshold-bytes=1024 ! aacparse ! decodebin ! audioconvert ! rtpL16pay name=pay1 name=pay1"
  | _ => "! fakesink"

/-- The vector of pipeline fragments joined by `apply_format`
(gst.rs:244-277), in source order. -/
def launch_parts (video_format audio_format : Option StreamFormat) :
    List String :=
  [ "( ",
    "(",
    "input-selector name=vid_inputselect",
    launch_vid_select video_format,
    ")",
    "(",
    "appsrc name=vidsrc is-live=true block=true emit-signals=false max-bytes=52428800 do-timestamp=true format=GST_FORMAT_TIME",
    launch_app_src video_format,
    "! tee name=vid_src_tee",
    "(",
    "vid_src_tee. ! queue silent=true  max-size-bytes=10485760  min-threshold-bytes=1024 ! vid_inputselect.sink_0",
    ")",
    ")",
    "(",
    launch_alt_source video_format,
    "! vid_inputselect.sink_1",
    ")",
    "(",
    "vid_src_tee. ! queue silent=true  max-size-bytes=10485760  min-threshold-bytes=1024 !",
    launch_imgfreeze_source video_format,
    " ! vid_inputselect.sink_2",
    ")",
    "appsrc name=audsrc is-live=true block=true emit-signals=false max-bytes=52428800 do-timestamp=true format=GST_FORMAT_TIME",
    launch_aud audio_format,
    ")" ]

/-- The launch descriptor installed by `apply_format` via
`factory.set_launch` (gst.rs:244-279). -/
def launch_str (video_format audio_format : Option StreamFormat) : String :=
  joinSp (launch_parts video_format audio_format)

/-! ## Media units and the stream output sink -/

/-- Translation of `InputSources` (gst.rs:43-49): the four selectable video branches. -/
inductive InputSources
  | cam
  | testSrc
  | still
  | black
deriving DecidableEq, Repr

/-- Translation of `VideoType` from the `neolink_core` media model: the codec tag carried
by I-frames and P-frames. -/
inductive VideoType
  | h264
  | h265
deriving DecidableEq, Repr

/-- Translation of `BcMedia`, the decoded media unit consumed by `stream_recv`.  Payload
bytes are modelled as lists of naturals.  `info` stands for the ignorable
informational variants (`InfoV1`, `InfoV2`, ...) matched by the `_` arm. -/
inductive BcMedia
  | iframe (videoType : VideoType) (data : List Nat)
  | pframe (videoType : VideoType) (data : List Nat)
  | aac (data : List Nat)
  | adpcm (data : List Nat)
  | info
deriving DecidableEq, Repr

/-- The error type of `stream_recv` (`Error::OtherString` from
`neolink_core::bc_protocol`). -/
inductive RtspError
  | otherString (msg : String)
deriving DecidableEq, Repr

/-- Outcome of `MaybeInputSelect::set_input`.  Modelled from the spec: the
`maybe_inputselect` module is not in the visible tree; per the spec the
call fails with a `NotReady` error exactly when the live selector element
handle has not yet been supplied by the executor. -/
inductive SelectorOutcome
  | ready
  | notReady
deriving DecidableEq, Repr

/-- Per-call environment oracle.  Modelled from the spec: it supplies the
externally determined outcomes of one `stream_recv` call — whether the
selector handle is available, whether each `write_all` into the
`MaybeAppSrc` injection points succeeds, and the answer
`States::should_stream` would give if consulted. -/
structure Env where
  selector : SelectorOutcome
  vidWriteOk : Bool
  audWriteOk : Bool
  oracleAnswer : Bool
deriving DecidableEq, Repr

/-- The state of a `GstOutputs` (gst.rs:51-60).  The GStreamer handles are
replaced by the externally observable traces they accumulate: `launch` is
the factory's current launch descriptor, `installs` counts the
`factory.set_launch` invocations (descriptor installs), `vidWrites` and
`audWrites` log the payloads successfully written to the two injection
points, and `hasState` records whether a `States` liveness oracle has
been attached (`state.is_some()`). -/
structure GstOutputs where
  video_format : Option StreamFormat
  audio_format : Option StreamFormat
  last_iframe : Option (List Nat)
  hasState : Bool
  launch : String
  installs : Nat
  vidWrites : List (List Nat)
  audWrites : List (List Nat)
deriving DecidableEq, Repr

namespace GstOutputs

/-- Translation of `GstOutputs::apply_format` (gst.rs:201-280): rebuild the launch
descriptor from the current format slots and install it on the factory. -/
def apply_format (o : GstOutputs) : GstOutputs :=
  { o with
    launch := launch_str o.video_format o.audio_format
    installs := o.installs + 1 }

/-- Translation of `GstOutputs::set_format` (gst.rs:183-199): latch the derived format
into the slot for its media class and reinstall the descriptor exactly
when the slot's value changes. -/
def set_format (o : GstOutputs) (format : Option StreamFormat) : GstOutputs :=
  match format with
  | some .h264 | some .h265 =>
    if format ≠ o.video_format then
      apply_format { o with video_format := format }
    else o
  | some .aac | some (.adpcm _) =>
    if format ≠ o.audio_format then
      apply_format { o with audio_format := format }
    else o
  | none => o

/-- Translation of `GstOutputs::from_appsrcs` (gst.rs:136-153): fresh state with empty
format slots, then one initial `apply_format`. -/
def from_appsrcs : GstOutputs :=
  apply_format
    { video_format := none
      audio_format := none
      last_iframe := none
      hasState := false
      launch := ""
      installs := 0
      vidWrites := []
      audWrites := [] }

/-- Translation of `GstOutputs::set_state` (gst.rs:155-158): attach the liveness oracle. -/
def set_state (o : GstOutputs) : GstOutputs :=
  { o with hasState := true }

/-- The fixed selector pad index of each input source, as requested by the
four arms of `set_input_source` (gst.rs:160-167). -/
def input_index : InputSources → Nat
  | .cam => 0
  | .testSrc => 1
  | .still => 2
  | .black => 3

/-- Translation of `GstOutputs::set_input_source` (gst.rs:160-167): ask
`MaybeInputSelect::set_input` for the source's fixed pad index.  The
outcome of `set_input` is modelled from the spec via `Env.selector`. -/
def set_input_source (env : Env) (input_source : InputSources) :
    Except String Unit :=
  match input_index input_source, env.selector with
  | _, .ready => .ok ()
  | _, .notReady => .error "inputselect not ready"

/-- Translation of `GstOutputs::has_last_iframe` (gst.rs:169-171). -/
def has_last_iframe (o : GstOutputs) : Bool :=
  o.last_iframe.isSome

/-- Translation of `GstOutputs::write_last_iframe` (gst.rs:173-181): error when no
I-frame has been retained, otherwise re-inject the retained bytes into
the video injection point. -/
def write_last_iframe (o : GstOutputs) (env : Env) :
    Except String Unit × GstOutputs :=
  match o.last_iframe with
  | none => (.error "No iframe data avaliable", o)
  | some d =>
    if env.vidWriteOk then (.ok (), { o with vidWrites := o.vidWrites ++ [d] })
    else (.error "vidsrc write failed", o)

/-- The `StreamFormat` derived from a `VideoType` (gst.rs:89-92,105-108). -/
def videoTypeFormat : VideoType → StreamFormat
  | .h264 => .h264
  | .h265 => .h265

/-- Translation of `GstOutputs::stream_recv` (gst.rs:79-132), the `StreamOutput`
implementation.  Rust's `&mut self` with a `Result` return is embedded as
a pair of the call's result and the state after the call; mutations made
before an early `?` return persist, exactly as in the source. -/
def stream_recv (o : GstOutputs) (env : Env) (media : BcMedia) :
    Except RtspError Bool × GstOutputs :=
  match set_input_source env .cam with
  | .error e =>
    (.error (.otherString ("Cannot set stream input to camera source " ++ e)), o)
  | .ok () =>
    match media with
    | .iframe videoType data =>
      let video_type := videoTypeFormat videoType
      let o := o.set_format (some video_type)
      if env.vidWriteOk then
        let o := { o with
          vidWrites := o.vidWrites ++ [data]
          last_iframe := some data }
        -- Only stop on an iframe so we have the last frame to show
        let should_continue := if o.hasState then env.oracleAnswer else true
        (.ok should_continue, o)
      else
        (.error (.otherString "Cannot write IFrame to vidsrc"), o)
    | .pframe videoType data =>
      let video_type := videoTypeFormat videoType
      let o := o.set_format (some video_type)
      if env.vidWriteOk then
        (.ok true, { o with vidWrites := o.vidWrites ++ [data] })
      else
        (.error (.otherString "Cannot write PFrame to vidsrc"), o)
    | .aac data =>
      let o := o.set_format (some .aac)
      if env.audWriteOk then
        (.ok true, { o with audWrites := o.audWrites ++ [data] })
      else
        (.error (.otherString "Cannot write AAC to audsrc"), o)
    | .adpcm data =>
      let o := o.set_format (some (.adpcm (data.length % 65536)))
      if env.audWriteOk then
        (.ok true, { o with audWrites := o.audWrites ++ [data] })
      else
        (.error (.otherString "Cannot write ADPCM to audsrc"), o)
    | .info =>
      -- Ignore other BcMedia like InfoV1 and InfoV2
      (.ok true, o)

/-- The state after one `stream_recv` call. -/
def step (o : GstOutputs) (p : Env × BcMedia) : GstOutputs :=
  (o.stream_recv p.1 p.2).2

/-- The state after a sequence of `stream_recv` calls. -/
def runUnits (o : GstOutputs) (steps : List (Env × BcMedia)) : GstOutputs :=
  steps.foldl step o

/-- All calls' results, paired with the final state. -/
def runCollect (o : GstOutputs) :
    List (Env × BcMedia) → List (Except RtspError Bool) × GstOutputs
  | [] => ([], o)
  | p :: rest =>
    let r := o.stream_recv p.1 p.2
    let tail := runCollect r.2 rest
    (r.1 :: tail.1, tail.2)

end GstOutputs

/-! ## Statement vocabulary: per-unit derived formats -/

/-- The video format a unit establishes (the classification performed by
the I-frame/P-frame arms of `stream_recv`). -/
def mediaVideoFormat : BcMedia → Option StreamFormat
  | .iframe vt _ => some (GstOutputs.videoTypeFormat vt)
  | .pframe vt _ => some (GstOutputs.videoTypeFormat vt)
  | _ => none

/-- The audio format a unit establishes (the classification performed by
the AAC/ADPCM arms of `stream_recv`). -/
def mediaAudioFormat : BcMedia → Option StreamFormat
  | .aac _ => some .aac
  | .adpcm d => some (.adpcm (d.length % 65536))
  | _ => none

/-- The payloads of the key-frame units of a sequence, in order. -/
def keyPayloads (steps : List (Env × BcMedia)) : List (List Nat) :=
  steps.filterMap (fun p =>
    match p.2 with
    | .iframe _ d => some d
    | _ => none)

/-- The environment reports the live pipeline fully available: selector
handle present and both injection-point writes succeeding. -/
def envOkFull (e : Env) : Prop :=
  e.selector = .ready ∧ e.vidWriteOk = true ∧ e.audWriteOk = true

/-- Whether a unit's derived format differs from the stored slot of its
media class (the condition under which `set_format` reinstalls). -/
def formatChanged (o : GstOutputs) (media : BcMedia) : Bool :=
  match mediaVideoFormat media, mediaAudioFormat media with
  | some f, _ => decide (o.video_format ≠ some f)
  | none, some f => decide (o.audio_format ≠ some f)
  | none, none => false

/-! ## Helper lemmas on `set_format` and `stream_recv` -/

namespace GstOutputs

theorem set_format_none (o : GstOutputs) : o.set_format none = o := rfl

theorem set_format_untouched (o : GstOutputs) (f : Option StreamFormat) :
    (o.set_format f).last_iframe = o.last_iframe ∧
    (o.set_format f).hasState = o.hasState ∧
    (o.set_format f).vidWrites = o.vidWrites ∧
    (o.set_format f).audWrites = o.audWrites := by
  rcases f with _ | f
  · exact ⟨rfl, rfl, rfl, rfl⟩
  · cases f <;> simp only [set_format, apply_format] <;> split <;>
      exact ⟨rfl, rfl, rfl, rfl⟩

/-- Latching a video format: the video slot becomes the given format, the
audio slot is untouched, and the install count grows exactly when the
video slot's value changes. -/
theorem set_format_video (o : GstOutputs) (f : StreamFormat)
    (h : f = .h264 ∨ f = .h265) :
    (o.set_format (some f)).video_format = some f ∧
    (o.set_format (some f)).audio_format = o.audio_format ∧
    (o.set_format (some f)).installs =
      (if o.video_format = some f then o.installs else o.installs + 1) := by
  rcases h with rfl | rfl
  · simp only [set_format, apply_format, ne_eq]
    by_cases hv : o.video_format = some StreamFormat.h264
    · simp [hv]
    · simp [hv, Ne.symm hv]
  · simp only [set_format, apply_format, ne_eq]
    by_cases hv : o.video_format = some StreamFormat.h265
    · simp [hv]
    · simp [hv, Ne.symm hv]

/-- Latching an audio format: the audio slot becomes the given format, the
video slot is untouched, and the install count grows exactly when the
audio slot's value changes. -/
theorem set_format_audio (o : GstOutputs) (f : StreamFormat)
    (h : f = .aac ∨ ∃ n, f = .adpcm n) :
    (o.set_format (some f)).audio_format = some f ∧
    (o.set_format (some f)).video_format = o.video_format ∧
    (o.set_format (some f)).installs =
      (if o.audio_format = some f then o.installs else o.installs + 1) := by
  rcases h with rfl | ⟨n, rfl⟩
  · simp only [set_format, apply_format, ne_eq]
    by_cases hv : o.audio_format = some StreamFormat.aac
    · simp [hv]
    · simp [hv, Ne.symm hv]
  · simp only [set_format, apply_format, ne_eq]
    by_cases hv : o.audio_format = some (StreamFormat.adpcm n)
    · simp [hv]
    · simp [hv, Ne.symm hv]

/-- Behaviour of `stream_recv` on an I-frame in a fully available environment. -/
theorem stream_recv_iframe_ok (o : GstOutputs) (env : Env) (vt : VideoType)
    (d : List Nat) (hs : env.selector = .ready) (hw : env.vidWriteOk = true) :
    o.stream_recv env (.iframe vt d) =
      (.ok (if o.hasState then env.oracleAnswer else true),
        { o.set_format (some (videoTypeFormat vt)) with
            vidWrites := o.vidWrites ++ [d]
            last_iframe := some d }) := by
  have hu := o.set_format_untouched (some (videoTypeFormat vt))
  simp only [stream_recv, set_input_source, hs, hw, if_pos]
  rw [hu.2.1, hu.2.2.1]

/-- Behaviour of `stream_recv` on a P-frame in a fully available environment. -/
theorem stream_recv_pframe_ok (o : GstOutputs) (env : Env) (vt : VideoType)
    (d : List Nat) (hs : env.selector = .ready) (hw : env.vidWriteOk = true) :
    o.stream_recv env (.pframe vt d) =
      (.ok true,
        { o.set_format (some (videoTypeFormat vt)) with
            vidWrites := o.vidWrites ++ [d] }) := by
  have hu := o.set_format_untouched (some (videoTypeFormat vt))
  simp only [stream_recv, set_input_source, hs, hw, if_pos]
  rw [hu.2.2.1]

/-- Behaviour of `stream_recv` on an AAC unit in a fully available environment. -/
theorem stream_recv_aac_ok (o : GstOutputs) (env : Env)
    (d : List Nat) (hs : env.selector = .ready) (hw : env.audWriteOk = true) :
    o.stream_recv env (.aac d) =
      (.ok true,
        { o.set_format (some .aac) with
            audWrites := o.audWrites ++ [d] }) := by
  have hu := o.set_format_untouched (some .aac)
  simp only [stream_recv, set_input_source, hs, hw, if_pos]
  rw [hu.2.2.2]

/-- Behaviour of `stream_recv` on an ADPCM unit in a fully available environment. -/
theorem stream_recv_adpcm_ok (o : GstOutputs) (env : Env)
    (d : List Nat) (hs : env.selector = .ready) (hw : env.audWriteOk = true) :
    o.stream_recv env (.adpcm d) =
      (.ok true,
        { o.set_format (some (.adpcm (d.length % 65536))) with
            audWrites := o.audWrites ++ [d] }) := by
  have hu := o.set_format_untouched (some (.adpcm (d.length % 65536)))
  simp only [stream_recv, set_input_source, hs, hw, if_pos]
  rw [hu.2.2.2]

/-- Behaviour of `stream_recv` on an informational unit with the selector available. -/
theorem stream_recv_info_ok (o : GstOutputs) (env : Env)
    (hs : env.selector = .ready) :
    o.stream_recv env .info = (.ok true, o) := by
  simp only [stream_recv, set_input_source, hs]

/-- Behaviour of `stream_recv` on an I-frame whose write fails: the format is already
latched, the retained key frame and the write log are untouched. -/
theorem stream_recv_iframe_fail (o : GstOutputs) (env : Env) (vt : VideoType)
    (d : List Nat) (hs : env.selector = .ready) (hw : env.vidWriteOk = false) :
    o.stream_recv env (.iframe vt d) =
      (.error (.otherString "Cannot write IFrame to vidsrc"),
        o.set_format (some (videoTypeFormat vt))) := by
  simp only [stream_recv, set_input_source, hs, hw, Bool.false_eq_true,
    if_false]

/-- Behaviour of `stream_recv` on a P-frame whose write fails. -/
theorem stream_recv_pframe_fail (o : GstOutputs) (env : Env) (vt : VideoType)
    (d : List Nat) (hs : env.selector = .ready) (hw : env.vidWriteOk = false) :
    o.stream_recv env (.pframe vt d) =
      (.error (.otherString "Cannot write PFrame to vidsrc"),
        o.set_format (some (videoTypeFormat vt))) := by
  simp only [stream_recv, set_input_source, hs, hw, Bool.false_eq_true,
    if_false]

/-- Behaviour of `stream_recv` on an AAC unit whose write fails. -/
theorem stream_recv_aac_fail (o : GstOutputs) (env : Env)
    (d : List Nat) (hs : env.selector = .ready) (hw : env.audWriteOk = false) :
    o.stream_recv env (.aac d) =
      (.error (.otherString "Cannot write AAC to audsrc"),
        o.set_format (some .aac)) := by
  simp only [stream_recv, set_input_source, hs, hw, Bool.false_eq_true,
    if_false]

/-- Behaviour of `stream_recv` on an ADPCM unit whose write fails. -/
theorem stream_recv_adpcm_fail (o : GstOutputs) (env : Env)
    (d : List Nat) (hs : env.selector = .ready) (hw : env.audWriteOk = false) :
    o.stream_recv env (.adpcm d) =
      (.error (.otherString "Cannot write ADPCM to audsrc"),
        o.set_format (some (.adpcm (d.length % 65536)))) := by
  simp only [stream_recv, set_input_source, hs, hw, Bool.false_eq_true,
    if_false]

/-- Behaviour of `stream_recv` with the selector handle unavailable: the error from
`set_input_source` is propagated and the state is untouched. -/
theorem stream_recv_notReady (o : GstOutputs) (env : Env) (media : BcMedia)
    (hs : env.selector = .notReady) :
    o.stream_recv env media =
      (.error (.otherString
        "Cannot set stream input to camera source inputselect not ready"), o) := by
  simp only [stream_recv, set_input_source, hs]
  rfl

end GstOutputs

/-- Fully available per-call environment: selector ready, both writes
succeeding, oracle answering "keep streaming". -/
def envOK : Env := ⟨.ready, true, true, true⟩

/-! ## Claim theorems -/

/-- C1: for every path and set of permitted roles, `add_permitted_roles`
emits, for each permitted role, a rule with access and construct, and
exactly when `"anonymous"` is not among the permitted roles it
additionally emits the implicit floor rule for `"anonymous"` with access
but not construct.  In particular `{"alice","bob"}` yields exactly the
three expected rules and `{"anonymous"}` yields exactly one. -/
theorem C1_access_declaration :
    (∀ (path : String) (roles : List String) (rule : AccessRule),
        rule ∈ add_permitted_roles path roles ↔
          ((rule.role ∈ roles ∧ rule = ⟨path, rule.role, true, true⟩) ∨
            (roles.contains "anonymous" = false ∧
              rule = ⟨path, "anonymous", true, false⟩))) ∧
    (∀ path : String,
        add_permitted_roles path ["alice", "bob"] =
          [⟨path, "alice", true, true⟩, ⟨path, "bob", true, true⟩,
            ⟨path, "anonymous", true, false⟩]) ∧
    (∀ path : String,
        add_permitted_roles path ["anonymous"] =
          [⟨path, "anonymous", true, true⟩]) := by
  refine ⟨?_, fun path => rfl, fun path => rfl⟩
  intro path roles rule
  unfold add_permitted_roles
  rw [List.mem_append]
  constructor
  · intro h
    rcases h with h | h
    · rcases List.mem_map.mp h with ⟨r, hr, hrule⟩
      subst hrule
      exact Or.inl ⟨hr, rfl⟩
    · by_cases hc : roles.contains "anonymous"
      · rw [if_pos hc] at h
        exact absurd h (List.not_mem_nil _)
      · rw [if_neg hc] at h
        rcases List.mem_singleton.mp h with rfl
        exact Or.inr ⟨Bool.eq_false_iff.mpr hc, rfl⟩
  · intro h
    rcases h with ⟨hr, hrule⟩ | ⟨hc, hrule⟩
    · exact Or.inl (List.mem_map.mpr ⟨rule.role, hr, hrule.symm⟩)
    · refine Or.inr ?_
      rw [hc]
      simp [hrule]

set_option maxRecDepth 10000 in
/-- C2 counterexample: with video format H264 and no audio format the
descriptor connects branches at selector pads 0, 1 and 2 but contains no
branch at pad 3 — the claimed fourth ("black") input branch does not
exist in the descriptor. -/
theorem C2_counterexample :
    strHas (launch_str (some .h264) none) "vid_inputselect.sink_3" = false ∧
    strHas (launch_str (some .h264) none) "vid_inputselect.sink_2" = true := by
  constructor <;> decide

/-- C2 (amended): for every pair of format slots the descriptor contains
the video-source-selector stage `vid_inputselect` with input branches
connected at the fixed pads 0, 1 and 2 (camera, test pattern, freeze
frame), and `set_input_source` maps the `InputSources` to the fixed pad
indices Camera→0, TestPattern→1, Freeze→2, Black→3 (the Black index has
no connected branch in the descriptor). -/
theorem C2_selector_branches (vf af : Option StreamFormat) :
    strHas (launch_str vf af) "input-selector name=vid_inputselect" = true ∧
    strHas (launch_str vf af) "vid_inputselect.sink_0" = true ∧
    strHas (launch_str vf af) "vid_inputselect.sink_1" = true ∧
    strHas (launch_str vf af) "vid_inputselect.sink_2" = true ∧
    GstOutputs.input_index .cam = 0 ∧ GstOutputs.input_index .testSrc = 1 ∧
    GstOutputs.input_index .still = 2 ∧ GstOutputs.input_index .black = 3 := by
  refine ⟨?_, ?_, ?_, ?_, rfl, rfl, rfl, rfl⟩
  · exact hasSeg_joinSp
      (s := "input-selector name=vid_inputselect")
      (by simp [launch_parts]) (by decide)
  · exact hasSeg_joinSp
      (s := "vid_src_tee. ! queue silent=true  max-size-bytes=10485760  min-threshold-bytes=1024 ! vid_inputselect.sink_0")
      (by simp [launch_parts]) (by decide)
  · exact hasSeg_joinSp
      (s := "! vid_inputselect.sink_1")
      (by simp [launch_parts]) (by decide)
  · exact hasSeg_joinSp
      (s := " ! vid_inputselect.sink_2")
      (by simp [launch_parts]) (by decide)

set_option maxRecDepth 10000 in
/-- C8 counterexample: with both format slots absent the descriptor
contains neither payload-terminal name — both branches end in `fakesink`
— refuting the claim that `pay0` and `pay1` are present for every pair
including absent slots. -/
theorem C8_counterexample :
    strHas (launch_str none none) "pay0" = false ∧
    strHas (launch_str none none) "pay1" = false := by
  constructor <;> decide

/-- C8 (amended): for every pair of format slots the descriptor contains
the stage names `vidsrc`, `audsrc` and `vid_inputselect`; it contains the
payload-terminal name `pay0` whenever the video slot holds a video format
and `pay1` whenever the audio slot holds an audio format (an absent slot
is routed to `fakesink` instead of a payload terminal). -/
theorem C8_payload_terminals (vf af : Option StreamFormat) :
    strHas (launch_str vf af) "name=vidsrc" = true ∧
    strHas (launch_str vf af) "name=audsrc" = true ∧
    strHas (launch_str vf af) "name=vid_inputselect" = true ∧
    ((vf = some .h264 ∨ vf = some .h265) →
      strHas (launch_str vf af) "name=pay0" = true) ∧
    ((af = some .aac ∨ ∃ n, af = some (.adpcm n)) →
      strHas (launch_str vf af) "name=pay1" = true) := by
  refine ⟨?_, ?_, ?_, ?_, ?_⟩
  · exact hasSeg_joinSp
      (s := "appsrc name=vidsrc is-live=true block=true emit-signals=false max-bytes=52428800 do-timestamp=true format=GST_FORMAT_TIME")
      (by simp [launch_parts]) (by decide)
  · exact hasSeg_joinSp
      (s := "appsrc name=audsrc is-live=true block=true emit-signals=false max-bytes=52428800 do-timestamp=true format=GST_FORMAT_TIME")
      (by simp [launch_parts]) (by decide)
  · exact hasSeg_joinSp
      (s := "input-selector name=vid_inputselect")
      (by simp [launch_parts]) (by decide)
  · rintro (rfl | rfl)
    · exact hasSeg_joinSp (s := launch_vid_select (some .h264))
        (by simp [launch_parts]) (by decide)
    · exact hasSeg_joinSp (s := launch_vid_select (some .h265))
        (by simp [launch_parts]) (by decide)
  · rintro (rfl | ⟨n, rfl⟩)
    · exact hasSeg_joinSp (s := launch_aud (some .aac))
        (by simp [launch_parts]) (by decide)
    · refine hasSeg_joinSp (s := launch_aud (some (.adpcm n)))
        (by simp [launch_parts]) ?_
      show hasSeg _
        ((("caps=audio/x-adpcm,layout=dvi,block_align=" ++ toString n) ++
          ",channels=1,rate=8000 ! queue silent=true max-size-bytes=10485760 min-threshold-bytes=1024 ! adpcmdec  ! audioconvert ! rtpL16pay name=pay1").data) = true
      rw [String.data_append]
      exact hasSeg_append_left (by decide) _

/-- C8 witness: at the pair (H264, AAC) both format hypotheses hold and
both payload terminals are present. -/
theorem C8_payload_terminals_witness :
    strHas (launch_str (some .h264) (some .aac)) "name=pay0" = true ∧
    strHas (launch_str (some .h264) (some .aac)) "name=pay1" = true :=
  ⟨(C8_payload_terminals (some .h264) (some .aac)).2.2.2.1 (Or.inl rfl),
   (C8_payload_terminals (some .h264) (some .aac)).2.2.2.2 (Or.inl rfl)⟩

/-- C5: whenever `stream_recv` returns `Ok` with "stop streaming"
(`Ok false`), the unit being processed is a key frame: no successful call
on a delta frame, AAC, ADPCM or informational unit ever returns
`keepStreaming = false`. -/
theorem C5_stop_only_on_keyframe (o : GstOutputs) (env : Env)
    (media : BcMedia) (h : (o.stream_recv env media).1 = .ok false) :
    ∃ vt d, media = .iframe vt d := by
  cases hsel : env.selector with
  | notReady =>
    rw [GstOutputs.stream_recv_notReady o env media hsel] at h
    exact absurd h (by simp)
  | ready =>
    cases media with
    | iframe vt d => exact ⟨vt, d, rfl⟩
    | pframe vt d =>
      by_cases hw : env.vidWriteOk
      · rw [GstOutputs.stream_recv_pframe_ok o env vt d hsel hw] at h
        exact absurd h (by simp)
      · rw [GstOutputs.stream_recv_pframe_fail o env vt d hsel
          (Bool.not_eq_true _ ▸ hw)] at h
        exact absurd h (by simp)
    | aac d =>
      by_cases hw : env.audWriteOk
      · rw [GstOutputs.stream_recv_aac_ok o env d hsel hw] at h
        exact absurd h (by simp)
      · rw [GstOutputs.stream_recv_aac_fail o env d hsel
          (Bool.not_eq_true _ ▸ hw)] at h
        exact absurd h (by simp)
    | adpcm d =>
      by_cases hw : env.audWriteOk
      · rw [GstOutputs.stream_recv_adpcm_ok o env d hsel hw] at h
        exact absurd h (by simp)
      · rw [GstOutputs.stream_recv_adpcm_fail o env d hsel
          (Bool.not_eq_true _ ▸ hw)] at h
        exact absurd h (by simp)
    | info =>
      rw [GstOutputs.stream_recv_info_ok o env hsel] at h
      exact absurd h (by simp)

/-- C5 witness: a key frame received with the oracle attached and
answering "stop" makes `stream_recv` return `Ok false`, and the unit is
indeed a key frame. -/
theorem C5_stop_only_on_keyframe_witness :
    ((GstOutputs.from_appsrcs.set_state).stream_recv
        ⟨.ready, true, true, false⟩ (.iframe .h264 [65])).1 = .ok false ∧
    ∃ vt d, (BcMedia.iframe .h264 [65]) = .iframe vt d :=
  ⟨rfl,
   C5_stop_only_on_keyframe GstOutputs.from_appsrcs.set_state
     ⟨.ready, true, true, false⟩ (.iframe .h264 [65]) rfl⟩

/-- C7 counterexample: with the selector handle unavailable (`NotReady`),
a call on an ignorable informational unit — which involves no payload at
all — already returns an error, refuting the claim that the not-ready
condition is never escalated into a failure result of `stream_recv`. -/
theorem C7_counterexample :
    (GstOutputs.from_appsrcs.stream_recv ⟨.notReady, true, true, true⟩
        .info).1 =
      .error (.otherString
        "Cannot set stream input to camera source inputselect not ready") := by
  rfl

/-- C7 (amended): whenever the selector reports not-ready, `stream_recv`
returns the mapped `Error::OtherString` failure for every unit kind,
before processing the payload (the state is untouched). -/
theorem C7_notready_escalates (o : GstOutputs) (env : Env) (media : BcMedia)
    (h : env.selector = .notReady) :
    (o.stream_recv env media).1 =
      .error (.otherString
        "Cannot set stream input to camera source inputselect not ready") ∧
    (o.stream_recv env media).2 = o := by
  rw [GstOutputs.stream_recv_notReady o env media h]
  exact ⟨rfl, rfl⟩

/-- C7 witness: the amended behaviour at a concrete not-ready call. -/
theorem C7_notready_escalates_witness :
    (⟨.notReady, true, true, true⟩ : Env).selector = .notReady ∧
    ((GstOutputs.from_appsrcs.stream_recv ⟨.notReady, true, true, true⟩
        (.pframe .h264 [66])).1 =
      .error (.otherString
        "Cannot set stream input to camera source inputselect not ready") ∧
    (GstOutputs.from_appsrcs.stream_recv ⟨.notReady, true, true, true⟩
        (.pframe .h264 [66])).2 = GstOutputs.from_appsrcs) :=
  ⟨rfl,
   C7_notready_escalates GstOutputs.from_appsrcs
     ⟨.notReady, true, true, true⟩ (.pframe .h264 [66]) rfl⟩

/-- The scripted ADPCM unit sequence of payload lengths
`[160, 160, 320, 320, 160]` from the spec's testable property. -/
def adpcmSteps : List (Env × BcMedia) :=
  [(envOK, .adpcm (List.replicate 160 0)),
   (envOK, .adpcm (List.replicate 160 0)),
   (envOK, .adpcm (List.replicate 320 0)),
   (envOK, .adpcm (List.replicate 320 0)),
   (envOK, .adpcm (List.replicate 160 0))]

set_option maxRecDepth 40000 in
/-- C4: processing an ADPCM unit latches `Adpcm(len as u16)` into the
audio slot; the slot (and hence the install count) changes exactly when
that block size differs from the stored value.  On the scripted length
sequence `[160, 160, 320, 320, 160]` the install count after each unit is
`2, 2, 3, 3, 4` (the initial install at creation being `1`): exactly
three rebuilds, after units 1, 3 and 5. -/
theorem C4_adpcm_block_size :
    (∀ (o : GstOutputs) (env : Env) (d : List Nat),
      env.selector = .ready →
      (o.stream_recv env (.adpcm d)).2.audio_format =
          some (.adpcm (d.length % 65536)) ∧
      ((o.stream_recv env (.adpcm d)).2.audio_format ≠ o.audio_format ↔
        o.audio_format ≠ some (.adpcm (d.length % 65536))) ∧
      (o.stream_recv env (.adpcm d)).2.installs =
        (if o.audio_format = some (.adpcm (d.length % 65536)) then o.installs
         else o.installs + 1)) ∧
    GstOutputs.from_appsrcs.installs = 1 ∧
    (GstOutputs.from_appsrcs.runUnits (adpcmSteps.take 1)).installs = 2 ∧
    (GstOutputs.from_appsrcs.runUnits (adpcmSteps.take 2)).installs = 2 ∧
    (GstOutputs.from_appsrcs.runUnits (adpcmSteps.take 3)).installs = 3 ∧
    (GstOutputs.from_appsrcs.runUnits (adpcmSteps.take 4)).installs = 3 ∧
    (GstOutputs.from_appsrcs.runUnits adpcmSteps).installs = 4 := by
  refine ⟨?_, rfl, rfl, rfl, rfl, rfl, rfl⟩
  intro o env d hs
  have hfmt := o.set_format_audio (.adpcm (d.length % 65536)) (Or.inr ⟨_, rfl⟩)
  by_cases hw : env.audWriteOk
  · rw [GstOutputs.stream_recv_adpcm_ok o env d hs hw]
    refine ⟨hfmt.1, ?_, hfmt.2.2⟩
    show (o.set_format _).audio_format ≠ o.audio_format ↔ _
    rw [hfmt.1]
    exact ne_comm
  · rw [GstOutputs.stream_recv_adpcm_fail o env d hs (Bool.not_eq_true _ ▸ hw)]
    refine ⟨hfmt.1, ?_, hfmt.2.2⟩
    rw [hfmt.1]
    exact ne_comm

/-- C4 witness: the first scripted unit (payload length 160) on a fresh
sink changes the audio slot and triggers a rebuild. -/
theorem C4_adpcm_block_size_witness :
    envOK.selector = .ready ∧
    ((GstOutputs.from_appsrcs.stream_recv envOK
        (.adpcm (List.replicate 160 0))).2.audio_format =
      some (.adpcm ((List.replicate 160 (0 : Nat)).length % 65536)) ∧
    ((GstOutputs.from_appsrcs.stream_recv envOK
        (.adpcm (List.replicate 160 0))).2.audio_format ≠
        GstOutputs.from_appsrcs.audio_format ↔
      GstOutputs.from_appsrcs.audio_format ≠
        some (.adpcm ((List.replicate 160 (0 : Nat)).length % 65536))) ∧
    (GstOutputs.from_appsrcs.stream_recv envOK
        (.adpcm (List.replicate 160 0))).2.installs =
      (if GstOutputs.from_appsrcs.audio_format =
          some (.adpcm ((List.replicate 160 (0 : Nat)).length % 65536))
       then GstOutputs.from_appsrcs.installs
       else GstOutputs.from_appsrcs.installs + 1)) :=
  ⟨rfl,
   C4_adpcm_block_size.1 GstOutputs.from_appsrcs envOK
     (List.replicate 160 0) rfl⟩

/-- C10: with the selector available and the relevant write failing, a
non-informational unit's derived format is latched (and the descriptor
reinstalled exactly when it changed) before the failing write; the call
returns the write error, yet the new format stays stored — no rollback —
and the retained last-key-frame bytes and write logs are untouched. -/
theorem C10_no_rollback_on_write_failure (o : GstOutputs) (env : Env)
    (media : BcMedia) (hs : env.selector = .ready)
    (hv : env.vidWriteOk = false) (ha : env.audWriteOk = false)
    (hm : media ≠ .info) :
    (∃ s, (o.stream_recv env media).1 = .error (.otherString s)) ∧
    (o.stream_recv env media).2.video_format =
      (mediaVideoFormat media).or o.video_format ∧
    (o.stream_recv env media).2.audio_format =
      (mediaAudioFormat media).or o.audio_format ∧
    (o.stream_recv env media).2.installs =
      o.installs + (if formatChanged o media then 1 else 0) ∧
    (o.stream_recv env media).2.last_iframe = o.last_iframe ∧
    (o.stream_recv env media).2.vidWrites = o.vidWrites ∧
    (o.stream_recv env media).2.audWrites = o.audWrites := by
  cases media with
  | info => exact absurd rfl hm
  | iframe vt d =>
    rw [GstOutputs.stream_recv_iframe_fail o env vt d hs hv]
    have hfmt := o.set_format_video (GstOutputs.videoTypeFormat vt)
      (by cases vt <;> simp [GstOutputs.videoTypeFormat])
    have hu := o.set_format_untouched (some (GstOutputs.videoTypeFormat vt))
    refine ⟨⟨_, rfl⟩, hfmt.1, hfmt.2.1, ?_, hu.1, hu.2.2.1, hu.2.2.2⟩
    rw [hfmt.2.2]
    simp only [formatChanged, mediaVideoFormat, ne_eq]
    by_cases hc : o.video_format = some (GstOutputs.videoTypeFormat vt) <;>
      simp [hc]
  | pframe vt d =>
    rw [GstOutputs.stream_recv_pframe_fail o env vt d hs hv]
    have hfmt := o.set_format_video (GstOutputs.videoTypeFormat vt)
      (by cases vt <;> simp [GstOutputs.videoTypeFormat])
    have hu := o.set_format_untouched (some (GstOutputs.videoTypeFormat vt))
    refine ⟨⟨_, rfl⟩, hfmt.1, hfmt.2.1, ?_, hu.1, hu.2.2.1, hu.2.2.2⟩
    rw [hfmt.2.2]
    simp only [formatChanged, mediaVideoFormat, ne_eq]
    by_cases hc : o.video_format = some (GstOutputs.videoTypeFormat vt) <;>
      simp [hc]
  | aac d =>
    rw [GstOutputs.stream_recv_aac_fail o env d hs ha]
    have hfmt := o.set_format_audio .aac (Or.inl rfl)
    have hu := o.set_format_untouched (some .aac)
    refine ⟨⟨_, rfl⟩, hfmt.2.1, hfmt.1, ?_, hu.1, hu.2.2.1, hu.2.2.2⟩
    rw [hfmt.2.2]
    simp only [formatChanged, mediaVideoFormat, mediaAudioFormat, ne_eq]
    by_cases hc : o.audio_format = some StreamFormat.aac <;> simp [hc]
  | adpcm d =>
    rw [GstOutputs.stream_recv_adpcm_fail o env d hs ha]
    have hfmt := o.set_format_audio (.adpcm (d.length % 65536))
      (Or.inr ⟨_, rfl⟩)
    have hu := o.set_format_untouched (some (.adpcm (d.length % 65536)))
    refine ⟨⟨_, rfl⟩, hfmt.2.1, hfmt.1, ?_, hu.1, hu.2.2.1, hu.2.2.2⟩
    rw [hfmt.2.2]
    simp only [formatChanged, mediaVideoFormat, mediaAudioFormat, ne_eq]
    by_cases hc : o.audio_format = some (StreamFormat.adpcm (d.length % 65536)) <;>
      simp [hc]

/-- C10 witness: a fresh sink receiving an H264 key frame whose write
fails keeps the newly latched video format and does not retain the
frame. -/
theorem C10_no_rollback_on_write_failure_witness :
    (⟨.ready, false, false, true⟩ : Env).selector = .ready ∧
    (⟨.ready, false, false, true⟩ : Env).vidWriteOk = false ∧
    (⟨.ready, false, false, true⟩ : Env).audWriteOk = false ∧
    (BcMedia.iframe .h264 [65] ≠ .info) ∧
    ((∃ s, (GstOutputs.from_appsrcs.stream_recv ⟨.ready, false, false, true⟩
        (.iframe .h264 [65])).1 = .error (.otherString s)) ∧
    (GstOutputs.from_appsrcs.stream_recv ⟨.ready, false, false, true⟩
        (.iframe .h264 [65])).2.video_format =
      (mediaVideoFormat (.iframe .h264 [65])).or
        GstOutputs.from_appsrcs.video_format ∧
    (GstOutputs.from_appsrcs.stream_recv ⟨.ready, false, false, true⟩
        (.iframe .h264 [65])).2.audio_format =
      (mediaAudioFormat (.iframe .h264 [65])).or
        GstOutputs.from_appsrcs.audio_format ∧
    (GstOutputs.from_appsrcs.stream_recv ⟨.ready, false, false, true⟩
        (.iframe .h264 [65])).2.installs =
      GstOutputs.from_appsrcs.installs +
        (if formatChanged GstOutputs.from_appsrcs (.iframe .h264 [65])
         then 1 else 0) ∧
    (GstOutputs.from_appsrcs.stream_recv ⟨.ready, false, false, true⟩
        (.iframe .h264 [65])).2.last_iframe =
      GstOutputs.from_appsrcs.last_iframe ∧
    (GstOutputs.from_appsrcs.stream_recv ⟨.ready, false, false, true⟩
        (.iframe .h264 [65])).2.vidWrites =
      GstOutputs.from_appsrcs.vidWrites ∧
    (GstOutputs.from_appsrcs.stream_recv ⟨.ready, false, false, true⟩
        (.iframe .h264 [65])).2.audWrites =
      GstOutputs.from_appsrcs.audWrites) :=
  ⟨rfl, rfl, rfl, by simp,
   C10_no_rollback_on_write_failure GstOutputs.from_appsrcs
     ⟨.ready, false, false, true⟩ (.iframe .h264 [65]) rfl rfl rfl (by simp)⟩

set_option maxRecDepth 10000 in
/-- C9: the end-to-end scenario.  A fresh sink (one descriptor install at
creation) with the liveness oracle attached processes
`[KeyFrame(H264, b"A"), DeltaFrame(H264, b"B"), KeyFrame(H264, b"C")]`
where the oracle answers `false` from the second key frame on: the calls
return `Ok true, Ok true, Ok false`; exactly one further descriptor
install happens (on the first key frame); the video injection point
receives `b"A", b"B", b"C"` in order. -/
theorem C9_end_to_end :
    GstOutputs.from_appsrcs.set_state.installs = 1 ∧
    (GstOutputs.from_appsrcs.set_state.runCollect
      [(⟨.ready, true, true, true⟩, .iframe .h264 [65]),
       (⟨.ready, true, true, true⟩, .pframe .h264 [66]),
       (⟨.ready, true, true, false⟩, .iframe .h264 [67])]).1 =
      [.ok true, .ok true, .ok false] ∧
    (GstOutputs.from_appsrcs.set_state.runCollect
      [(⟨.ready, true, true, true⟩, .iframe .h264 [65]),
       (⟨.ready, true, true, true⟩, .pframe .h264 [66]),
       (⟨.ready, true, true, false⟩, .iframe .h264 [67])]).2.installs = 2 ∧
    (GstOutputs.from_appsrcs.set_state.runCollect
      [(⟨.ready, true, true, true⟩, .iframe .h264 [65]),
       (⟨.ready, true, true, true⟩, .pframe .h264 [66]),
       (⟨.ready, true, true, false⟩, .iframe .h264 [67])]).2.vidWrites =
      [[65], [66], [67]] ∧
    (GstOutputs.from_appsrcs.set_state.runCollect
      [(⟨.ready, true, true, true⟩, .iframe .h264 [65]),
       (⟨.ready, true, true, true⟩, .pframe .h264 [66]),
       (⟨.ready, true, true, false⟩, .iframe .h264 [67])]).2.last_iframe =
      some [67] :=
  ⟨rfl, rfl, rfl, rfl, rfl⟩

/-! ## Run-level lemmas for the rebuild bound and the replay law -/

/-- The potential charged to a run: the installs already performed plus
one unit of credit for each format slot that has not yet latched the
sequence's constant format. -/
def installMeasure (vfm afm : Option StreamFormat) (s : GstOutputs) : Nat :=
  s.installs + (if s.video_format = vfm then 0 else 1) +
    (if s.audio_format = afm then 0 else 1)

theorem step_installMeasure_le (o : GstOutputs) (p : Env × BcMedia)
    (vf af : StreamFormat)
    (hv : mediaVideoFormat p.2 = none ∨ mediaVideoFormat p.2 = some vf)
    (ha : mediaAudioFormat p.2 = none ∨ mediaAudioFormat p.2 = some af) :
    installMeasure (some vf) (some af) (o.step p) ≤
      installMeasure (some vf) (some af) o := by
  obtain ⟨env, media⟩ := p
  show installMeasure _ _ (o.stream_recv env media).2 ≤ _
  cases hsel : env.selector with
  | notReady => rw [GstOutputs.stream_recv_notReady o env media hsel]
  | ready =>
    cases media with
    | info => rw [GstOutputs.stream_recv_info_ok o env hsel]
    | iframe vt d =>
      rcases hv with hv | hv
      · exact absurd hv (by simp [mediaVideoFormat])
      · have hvf : GstOutputs.videoTypeFormat vt = vf := by
          simpa [mediaVideoFormat] using hv
        have hfmt := o.set_format_video (GstOutputs.videoTypeFormat vt)
          (by cases vt <;> simp [GstOutputs.videoTypeFormat])
        have key : installMeasure (some vf) (some af)
            (o.set_format (some (GstOutputs.videoTypeFormat vt))) ≤
            installMeasure (some vf) (some af) o := by
          unfold installMeasure
          rw [hfmt.1, hfmt.2.1, hfmt.2.2, hvf]
          by_cases hc : o.video_format = some vf <;> simp [hc]
        by_cases hw : env.vidWriteOk
        · rw [GstOutputs.stream_recv_iframe_ok o env vt d hsel hw]
          exact key
        · rw [GstOutputs.stream_recv_iframe_fail o env vt d hsel
            (Bool.not_eq_true _ ▸ hw)]
          exact key
    | pframe vt d =>
      rcases hv with hv | hv
      · exact absurd hv (by simp [mediaVideoFormat])
      · have hvf : GstOutputs.videoTypeFormat vt = vf := by
          simpa [mediaVideoFormat] using hv
        have hfmt := o.set_format_video (GstOutputs.videoTypeFormat vt)
          (by cases vt <;> simp [GstOutputs.videoTypeFormat])
        have key : installMeasure (some vf) (some af)
            (o.set_format (some (GstOutputs.videoTypeFormat vt))) ≤
            installMeasure (some vf) (some af) o := by
          unfold installMeasure
          rw [hfmt.1, hfmt.2.1, hfmt.2.2, hvf]
          by_cases hc : o.video_format = some vf <;> simp [hc]
        by_cases hw : env.vidWriteOk
        · rw [GstOutputs.stream_recv_pframe_ok o env vt d hsel hw]
          exact key
        · rw [GstOutputs.stream_recv_pframe_fail o env vt d hsel
            (Bool.not_eq_true _ ▸ hw)]
          exact key
    | aac d =>
      rcases ha with ha | ha
      · exact absurd ha (by simp [mediaAudioFormat])
      · have haf : StreamFormat.aac = af := by
          simpa [mediaAudioFormat] using ha
        have hfmt := o.set_format_audio .aac (Or.inl rfl)
        have key : installMeasure (some vf) (some af)
            (o.set_format (some .aac)) ≤
            installMeasure (some vf) (some af) o := by
          unfold installMeasure
          rw [hfmt.1, hfmt.2.1, hfmt.2.2, haf]
          by_cases hc : o.audio_format = some af
          · simp [hc]
          · simp [hc]
            omega
        by_cases hw : env.audWriteOk
        · rw [GstOutputs.stream_recv_aac_ok o env d hsel hw]
          exact key
        · rw [GstOutputs.stream_recv_aac_fail o env d hsel
            (Bool.not_eq_true _ ▸ hw)]
          exact key
    | adpcm d =>
      rcases ha with ha | ha
      · exact absurd ha (by simp [mediaAudioFormat])
      · have haf : StreamFormat.adpcm (d.length % 65536) = af := by
          simpa [mediaAudioFormat] using ha
        have hfmt := o.set_format_audio (.adpcm (d.length % 65536))
          (Or.inr ⟨_, rfl⟩)
        have key : installMeasure (some vf) (some af)
            (o.set_format (some (.adpcm (d.length % 65536)))) ≤
            installMeasure (some vf) (some af) o := by
          unfold installMeasure
          rw [hfmt.1, hfmt.2.1, hfmt.2.2, haf]
          by_cases hc : o.audio_format = some af
          · simp [hc]
          · simp [hc]
            omega
        by_cases hw : env.audWriteOk
        · rw [GstOutputs.stream_recv_adpcm_ok o env d hsel hw]
          exact key
        · rw [GstOutputs.stream_recv_adpcm_fail o env d hsel
            (Bool.not_eq_true _ ▸ hw)]
          exact key

theorem runUnits_installMeasure_le (steps : List (Env × BcMedia))
    (vf af : StreamFormat)
    (hv : ∀ p ∈ steps, mediaVideoFormat p.2 = none ∨
            mediaVideoFormat p.2 = some vf)
    (ha : ∀ p ∈ steps, mediaAudioFormat p.2 = none ∨
            mediaAudioFormat p.2 = some af) :
    ∀ o : GstOutputs,
      installMeasure (some vf) (some af) (o.runUnits steps) ≤
        installMeasure (some vf) (some af) o := by
  induction steps with
  | nil => intro o; exact le_refl _
  | cons p rest ih =>
    intro o
    have hstep := step_installMeasure_le o p vf af
      (hv p (List.mem_cons_self p rest)) (ha p (List.mem_cons_self p rest))
    have htail := ih
      (fun q hq => hv q (List.mem_cons_of_mem p hq))
      (fun q hq => ha q (List.mem_cons_of_mem p hq)) (o.step p)
    exact le_trans htail hstep

/-- C3: over any unit sequence in which every video unit carries the same
codec and every audio unit derives the same audio format, receiving units
triggers at most two descriptor rebuilds in total, regardless of the
sequence length. -/
theorem C3_rebuild_bound (o : GstOutputs) (steps : List (Env × BcMedia))
    (vf af : StreamFormat)
    (hv : ∀ p ∈ steps, mediaVideoFormat p.2 = none ∨
            mediaVideoFormat p.2 = some vf)
    (ha : ∀ p ∈ steps, mediaAudioFormat p.2 = none ∨
            mediaAudioFormat p.2 = some af) :
    (o.runUnits steps).installs ≤ o.installs + 2 := by
  have h := runUnits_installMeasure_le steps vf af hv ha o
  unfold installMeasure at h
  split_ifs at h <;> omega

/-- C3 witness: a five-unit constant-codec stream from a fresh sink stays
within the bound. -/
theorem C3_rebuild_bound_witness :
    (∀ p ∈ [(envOK, BcMedia.iframe .h264 [65]),
            (envOK, BcMedia.aac [1]),
            (envOK, BcMedia.pframe .h264 [66]),
            (envOK, BcMedia.aac [2]),
            (envOK, BcMedia.iframe .h264 [67])],
        mediaVideoFormat p.2 = none ∨
          mediaVideoFormat p.2 = some .h264) ∧
    (∀ p ∈ [(envOK, BcMedia.iframe .h264 [65]),
            (envOK, BcMedia.aac [1]),
            (envOK, BcMedia.pframe .h264 [66]),
            (envOK, BcMedia.aac [2]),
            (envOK, BcMedia.iframe .h264 [67])],
        mediaAudioFormat p.2 = none ∨
          mediaAudioFormat p.2 = some .aac) ∧
    (GstOutputs.from_appsrcs.runUnits
      [(envOK, BcMedia.iframe .h264 [65]),
       (envOK, BcMedia.aac [1]),
       (envOK, BcMedia.pframe .h264 [66]),
       (envOK, BcMedia.aac [2]),
       (envOK, BcMedia.iframe .h264 [67])]).installs ≤
      GstOutputs.from_appsrcs.installs + 2 :=
  ⟨by decide, by decide,
   C3_rebuild_bound GstOutputs.from_appsrcs _ .h264 .aac
     (by decide) (by decide)⟩

/-- Appending to the front of a list moves `getLast?` to the fallback
position. -/
theorem getLast?_cons_or {α : Type} (d : α) (ks : List α) :
    (d :: ks).getLast? = Option.or ks.getLast? (some d) := by
  cases ks with
  | nil => simp
  | cons k ks =>
    rw [List.getLast?_cons_cons]
    obtain ⟨x, hx⟩ : ∃ x, (k :: ks).getLast? = some x := by
      cases h : (k :: ks).getLast? with
      | none => exact absurd (List.getLast?_eq_none_iff.mp h) (by simp)
      | some x => exact ⟨x, rfl⟩
    rw [hx]
    rfl

theorem or_some_absorb {α : Type} (a : Option α) (d : α) (x : Option α) :
    Option.or (Option.or a (some d)) x = Option.or a (some d) := by
  cases a <;> rfl

/-- Over a run in a fully available environment, the retained last
I-frame is the last key-frame payload of the sequence, falling back to
whatever was retained before the run. -/
theorem runUnits_last_iframe (steps : List (Env × BcMedia)) :
    ∀ o : GstOutputs, (∀ p ∈ steps, envOkFull p.1) →
      (o.runUnits steps).last_iframe =
        Option.or (keyPayloads steps).getLast? o.last_iframe := by
  induction steps with
  | nil =>
    intro o _
    simp [GstOutputs.runUnits, keyPayloads, Option.or]
  | cons p rest ih =>
    intro o h
    obtain ⟨hsel, hvw, haw⟩ := h p (List.mem_cons_self p rest)
    have htail := ih (o.step p) (fun q hq => h q (List.mem_cons_of_mem p hq))
    have hrun : (o.runUnits (p :: rest)) = ((o.step p).runUnits rest) := rfl
    obtain ⟨env, media⟩ := p
    cases media with
    | iframe vt d =>
      have hstep : (o.step (env, .iframe vt d)).last_iframe = some d := by
        show ((o.stream_recv env (.iframe vt d)).2).last_iframe = some d
        rw [GstOutputs.stream_recv_iframe_ok o env vt d hsel hvw]
      rw [hrun, htail, hstep]
      show _ = Option.or (keyPayloads ((env, BcMedia.iframe vt d) :: rest)).getLast? _
      have hks : keyPayloads ((env, BcMedia.iframe vt d) :: rest) =
          d :: keyPayloads rest := rfl
      rw [hks, getLast?_cons_or, or_some_absorb]
    | pframe vt d =>
      have hstep : (o.step (env, .pframe vt d)).last_iframe = o.last_iframe := by
        show ((o.stream_recv env (.pframe vt d)).2).last_iframe = o.last_iframe
        rw [GstOutputs.stream_recv_pframe_ok o env vt d hsel hvw]
        exact (o.set_format_untouched _).1
      rw [hrun, htail, hstep]
      rfl
    | aac d =>
      have hstep : (o.step (env, .aac d)).last_iframe = o.last_iframe := by
        show ((o.stream_recv env (.aac d)).2).last_iframe = o.last_iframe
        rw [GstOutputs.stream_recv_aac_ok o env d hsel haw]
        exact (o.set_format_untouched _).1
      rw [hrun, htail, hstep]
      rfl
    | adpcm d =>
      have hstep : (o.step (env, .adpcm d)).last_iframe = o.last_iframe := by
        show ((o.stream_recv env (.adpcm d)).2).last_iframe = o.last_iframe
        rw [GstOutputs.stream_recv_adpcm_ok o env d hsel haw]
        exact (o.set_format_untouched _).1
      rw [hrun, htail, hstep]
      rfl
    | info =>
      have hstep : (o.step (env, .info)).last_iframe = o.last_iframe := by
        show ((o.stream_recv env .info).2).last_iframe = o.last_iframe
        rw [GstOutputs.stream_recv_info_ok o env hsel]
      rw [hrun, htail, hstep]
      rfl

theorem getLast?_cons_exists {α : Type} (k : α) (ks : List α) :
    ∃ x, (k :: ks).getLast? = some x := by
  cases h : (k :: ks).getLast? with
  | none => exact absurd (List.getLast?_eq_none_iff.mp h) (by simp)
  | some x => exact ⟨x, rfl⟩

/-- C6: starting from a fresh sink and processing any unit sequence in a
fully available environment, `has_last_iframe` is true exactly when the
sequence contained at least one key frame; `write_last_iframe` fails with
the no-data error exactly when no key frame was retained, and otherwise
succeeds and re-injects bytes identical to the payload of the most
recently processed key frame. -/
theorem C6_replay_law (steps : List (Env × BcMedia))
    (h : ∀ p ∈ steps, envOkFull p.1) (env : Env)
    (he : env.vidWriteOk = true) :
    ((GstOutputs.from_appsrcs.runUnits steps).has_last_iframe =
      !(keyPayloads steps).isEmpty) ∧
    (keyPayloads steps = [] →
      ((GstOutputs.from_appsrcs.runUnits steps).write_last_iframe env).1 =
        .error "No iframe data avaliable") ∧
    (∀ d, (keyPayloads steps).getLast? = some d →
      ((GstOutputs.from_appsrcs.runUnits steps).write_last_iframe env).1 =
        .ok () ∧
      ((GstOutputs.from_appsrcs.runUnits steps).write_last_iframe
          env).2.vidWrites =
        (GstOutputs.from_appsrcs.runUnits steps).vidWrites ++ [d]) := by
  have hlast := runUnits_last_iframe steps GstOutputs.from_appsrcs h
  have hbase : GstOutputs.from_appsrcs.last_iframe = none := rfl
  rw [hbase] at hlast
  have hor : Option.or (keyPayloads steps).getLast? none =
      (keyPayloads steps).getLast? := by
    cases (keyPayloads steps).getLast? <;> rfl
  rw [hor] at hlast
  refine ⟨?_, ?_, ?_⟩
  · rw [GstOutputs.has_last_iframe, hlast]
    cases hks : keyPayloads steps with
    | nil => rfl
    | cons k ks =>
      obtain ⟨x, hx⟩ := getLast?_cons_exists k ks
      rw [hx]
      rfl
  · intro hks
    have hnone : (GstOutputs.from_appsrcs.runUnits steps).last_iframe =
        none := by
      rw [hlast, hks]
      rfl
    simp [GstOutputs.write_last_iframe, hnone]
  · intro d hd
    have hsome : (GstOutputs.from_appsrcs.runUnits steps).last_iframe =
        some d := by
      rw [hlast, hd]
    constructor
    · simp [GstOutputs.write_last_iframe, hsome, he]
    · simp [GstOutputs.write_last_iframe, hsome, he]

/-- C6 witness: after one key frame, the last frame is retained and
replaying it succeeds with the same bytes. -/
theorem C6_replay_law_witness :
    (∀ p ∈ [(envOK, BcMedia.iframe .h264 [65])], envOkFull p.1) ∧
    envOK.vidWriteOk = true ∧
    (((GstOutputs.from_appsrcs.runUnits
        [(envOK, BcMedia.iframe .h264 [65])]).has_last_iframe =
      !(keyPayloads [(envOK, BcMedia.iframe .h264 [65])]).isEmpty) ∧
    (keyPayloads [(envOK, BcMedia.iframe .h264 [65])] = [] →
      ((GstOutputs.from_appsrcs.runUnits
          [(envOK, BcMedia.iframe .h264 [65])]).write_last_iframe envOK).1 =
        .error "No iframe data avaliable") ∧
    (∀ d, (keyPayloads [(envOK, BcMedia.iframe .h264 [65])]).getLast? =
        some d →
      ((GstOutputs.from_appsrcs.runUnits
          [(envOK, BcMedia.iframe .h264 [65])]).write_last_iframe envOK).1 =
        .ok () ∧
      ((GstOutputs.from_appsrcs.runUnits
          [(envOK, BcMedia.iframe .h264 [65])]).write_last_iframe
          envOK).2.vidWrites =
        (GstOutputs.from_appsrcs.runUnits
          [(envOK, BcMedia.iframe .h264 [65])]).vidWrites ++ [d])) :=
  ⟨by intro p hp; rcases List.mem_singleton.mp hp with rfl; exact ⟨rfl, rfl, rfl⟩,
   rfl,
   C6_replay_law [(envOK, BcMedia.iframe .h264 [65])]
     (by intro p hp; rcases List.mem_singleton.mp hp with rfl
         exact ⟨rfl, rfl, rfl⟩)
     envOK rfl⟩

end Neolink
